import Mathlib

/-!
Verification of the movement / collision / proximity engine of the `bday`
repository, as a shallow embedding in Lean 4.

Coordinates and timestamps are modelled as rationals (JS numbers in this
code path are only added, subtracted, multiplied, divided and compared,
never rounded, so the rational subfield is a faithful carrier; the one
exceptional value, NaN, is modelled explicitly where it matters, see
`distLt`).

Embedded source files:
- `js/config/gameConfig.js`   (CONFIG constants)
- `js/utils/ValidationUtils.js`  (clamp, isColliding)
- `js/entities/GameObject.js`  (setPosition)
- `js/entities/Player.js`    (move, canMoveTo, isMoving)
- `js/entities/Dog.js`      (update, activate, deactivate, setState,
                  reset, getAnimationProgress)
- `js/systems/CollisionSystem.js` (checkCollision, wouldCollide,
                  getMovementResponse)
- `js/core/Game.js`       (playBumpSound cooldown logic)
-/

/-- CONFIG.CANVAS.WIDTH from gameConfig.js. -/
def canvasWidth : ℚ := 1094

/-- CONFIG.CANVAS.HEIGHT from gameConfig.js. -/
def canvasHeight : ℚ := 1112

/-- A rectangle `{x, y, width, height}` in world units. -/
structure Rect where
  x : ℚ
  y : ℚ
  width : ℚ
  height : ℚ
deriving DecidableEq

/-- ValidationUtils.clamp: `Math.min(Math.max(value, min), max)`. -/
def clamp (value lo hi : ℚ) : ℚ := min (max value lo) hi

/-- ValidationUtils.isColliding: strict AABB overlap test,
`r1.x < r2.x + r2.width && r1.x + r1.width > r2.x &&
 r1.y < r2.y + r2.height && r1.y + r1.height > r2.y`. -/
def isColliding (r1 r2 : Rect) : Bool :=
  decide (r1.x < r2.x + r2.width) && decide (r1.x + r1.width > r2.x) &&
  decide (r1.y < r2.y + r2.height) && decide (r1.y + r1.height > r2.y)

/-- The spatial state of Player.js: position, size and `lastPosition`.
(`speed`, `direction` and the sprite map play no part in the claims
about `move`/`canMoveTo`/`isMoving` and are omitted.) -/
structure Player where
  x : ℚ
  y : ℚ
  width : ℚ
  height : ℚ
  lastX : ℚ
  lastY : ℚ
deriving DecidableEq

/-- GameObject.getBounds for the player. -/
def Player.bounds (p : Player) : Rect :=
  ⟨p.x, p.y, p.width, p.height⟩

/-- Player.canMoveTo: world-boundary check
(`x < 0 || y < 0 || x + width > CANVAS.WIDTH || y + height > CANVAS.HEIGHT`),
then `!collisionBoxes.some(box => isColliding(playerBounds, box))`. -/
def canMoveTo (p : Player) (x y : ℚ) (boxes : List Rect) : Bool :=
  if x < 0 ∨ y < 0 ∨ x + p.width > canvasWidth ∨ y + p.height > canvasHeight then
    false
  else
    !(boxes.any fun box => isColliding ⟨x, y, p.width, p.height⟩ box)

/-- Player.move: stores `lastPosition`, computes the target position,
and commits it (clamped) only when `canMoveTo` allows it; returns whether
the move succeeded. -/
def Player.move (p : Player) (dx dy : ℚ) (boxes : List Rect) : Player × Bool :=
  let p1 : Player := { p with lastX := p.x, lastY := p.y }
  if canMoveTo p (p.x + dx) (p.y + dy) boxes then
    ({ p1 with x := clamp (p.x + dx) 0 (canvasWidth - p.width),
               y := clamp (p.y + dy) 0 (canvasHeight - p.height) }, true)
  else
    (p1, false)

/-- Player.isMoving: `x !== lastPosition.x || y !== lastPosition.y`. -/
def Player.isMoving (p : Player) : Bool :=
  decide (p.x ≠ p.lastX) || decide (p.y ≠ p.lastY)

/-- Containment of a rectangle in the world `[0,0]-[1094,1112]`. -/
def inWorld (r : Rect) : Prop :=
  0 ≤ r.x ∧ r.x + r.width ≤ canvasWidth ∧ 0 ≤ r.y ∧ r.y + r.height ≤ canvasHeight

/-- C1: no tunneling / obstacle-overlap invariant.  If the player bounds
overlap no obstacle and lie inside the world before `Player.move(dx, dy,
obstacles)`, then afterwards they still overlap no obstacle and still lie
inside the world, for every obstacle list and every displacement. -/
theorem player_move_no_tunneling (p : Player) (dx dy : ℚ) (boxes : List Rect)
    (hb : ∀ b ∈ boxes, isColliding p.bounds b = false)
    (hw : inWorld p.bounds) :
    (∀ b ∈ boxes, isColliding ((p.move dx dy boxes).1).bounds b = false) ∧
    inWorld ((p.move dx dy boxes).1).bounds := by
  rw [Player.move]
  by_cases h : canMoveTo p (p.x + dx) (p.y + dy) boxes = true
  · rw [if_pos h]
    rw [canMoveTo] at h
    split at h
    · exact absurd h (by simp)
    · rename_i hcond
      push_neg at hcond
      obtain ⟨hx0, hy0, hxw, hyh⟩ := hcond
      have hclx : clamp (p.x + dx) 0 (canvasWidth - p.width) = p.x + dx := by
        unfold clamp
        rw [max_eq_left hx0, min_eq_left (by linarith)]
      have hcly : clamp (p.y + dy) 0 (canvasHeight - p.height) = p.y + dy := by
        unfold clamp
        rw [max_eq_left hy0, min_eq_left (by linarith)]
      have hany : (boxes.any fun box =>
          isColliding ⟨p.x + dx, p.y + dy, p.width, p.height⟩ box) = false := by
        simpa using h
      rw [List.any_eq_false] at hany
      constructor
      · intro b hbmem
        have hcb := hany b hbmem
        simp only [Player.bounds, hclx, hcly]
        simpa using hcb
      · simp only [inWorld, Player.bounds, hclx, hcly]
        exact ⟨hx0, hxw, hy0, hyh⟩
  · rw [if_neg h]
    exact ⟨hb, hw⟩

/-- Witness for C1 at a concrete state: player at (100, 100), size 16×32,
one obstacle at (200, 200), attempted displacement (1, 1). -/
theorem player_move_no_tunneling_witness :
    inWorld ((Player.move ⟨100, 100, 16, 32, 100, 100⟩ 1 1
      [⟨200, 200, 10, 10⟩]).1).bounds :=
  (player_move_no_tunneling ⟨100, 100, 16, 32, 100, 100⟩ 1 1
    [⟨200, 200, 10, 10⟩] (by norm_num [isColliding, Player.bounds])
    (by norm_num [inWorld, Player.bounds, canvasWidth, canvasHeight])).2

/-- The spatial state of GameObject.js: position, size and identity.
(`id` is an opaque string generated by `GameObject.generateId`.) -/
structure GameObject where
  x : ℚ
  y : ℚ
  width : ℚ
  height : ℚ
  id : String
deriving DecidableEq

/-- GameObject.setPosition: clamps each coordinate so the rectangle stays
inside the canvas,
`x = clamp(x, 0, CANVAS.WIDTH - width); y = clamp(y, 0, CANVAS.HEIGHT - height)`. -/
def setPosition (g : GameObject) (x y : ℚ) : GameObject :=
  { g with x := clamp x 0 (canvasWidth - g.width),
           y := clamp y 0 (canvasHeight - g.height) }

/-- C7: clamping.  For every entity with `0 < width ≤ 1094` and
`0 < height ≤ 1112` and every input `(x, y)` — including out-of-range
inputs — `setPosition(x, y)` yields a position whose rectangle lies fully
inside the world bounds, with `width`, `height` and `id` unchanged. -/
theorem setPosition_clamps_to_world (g : GameObject) (x y : ℚ)
    (hw0 : 0 < g.width) (hw : g.width ≤ canvasWidth)
    (hh0 : 0 < g.height) (hh : g.height ≤ canvasHeight) :
    (0 ≤ (setPosition g x y).x ∧
     (setPosition g x y).x + (setPosition g x y).width ≤ canvasWidth ∧
     0 ≤ (setPosition g x y).y ∧
     (setPosition g x y).y + (setPosition g x y).height ≤ canvasHeight) ∧
    (setPosition g x y).width = g.width ∧
    (setPosition g x y).height = g.height ∧
    (setPosition g x y).id = g.id := by
  simp only [setPosition, clamp]
  refine ⟨⟨?_, ?_, ?_, ?_⟩, by trivial, by trivial, by trivial⟩
  · exact le_min (le_max_right x 0) (by linarith)
  · have : min (max x 0) (canvasWidth - g.width) ≤ canvasWidth - g.width :=
      min_le_right _ _
    linarith
  · exact le_min (le_max_right y 0) (by linarith)
  · have : min (max y 0) (canvasHeight - g.height) ≤ canvasHeight - g.height :=
      min_le_right _ _
    linarith

/-- Witness for C7: an entity of size 16×32 repositioned to the
out-of-range point (-100, 5000) ends up fully inside the world. -/
theorem setPosition_clamps_to_world_witness :
    (0 ≤ (setPosition ⟨5, 5, 16, 32, "obj_a"⟩ (-100) 5000).x ∧
     (setPosition ⟨5, 5, 16, 32, "obj_a"⟩ (-100) 5000).x +
       (setPosition ⟨5, 5, 16, 32, "obj_a"⟩ (-100) 5000).width ≤ canvasWidth ∧
     0 ≤ (setPosition ⟨5, 5, 16, 32, "obj_a"⟩ (-100) 5000).y ∧
     (setPosition ⟨5, 5, 16, 32, "obj_a"⟩ (-100) 5000).y +
       (setPosition ⟨5, 5, 16, 32, "obj_a"⟩ (-100) 5000).height ≤ canvasHeight) ∧
    (setPosition ⟨5, 5, 16, 32, "obj_a"⟩ (-100) 5000).width = 16 ∧
    (setPosition ⟨5, 5, 16, 32, "obj_a"⟩ (-100) 5000).height = 32 ∧
    (setPosition ⟨5, 5, 16, 32, "obj_a"⟩ (-100) 5000).id = "obj_a" :=
  setPosition_clamps_to_world ⟨5, 5, 16, 32, "obj_a"⟩ (-100) 5000
    (by norm_num) (by norm_num [canvasWidth])
    (by norm_num) (by norm_num [canvasHeight])

/-- C10: blocked-move atomicity.  If `Player.move(dx, dy, obstacles)`
returns `false`, the player `x` and `y` (and size) are unchanged; the
only modified field is `lastPosition`, which is set to the unchanged
pre-move position, so `isMoving()` returns `false` afterwards. -/
theorem player_move_blocked_atomic (p : Player) (dx dy : ℚ) (boxes : List Rect)
    (h : (p.move dx dy boxes).2 = false) :
    (p.move dx dy boxes).1.x = p.x ∧
    (p.move dx dy boxes).1.y = p.y ∧
    (p.move dx dy boxes).1.width = p.width ∧
    (p.move dx dy boxes).1.height = p.height ∧
    (p.move dx dy boxes).1.lastX = p.x ∧
    (p.move dx dy boxes).1.lastY = p.y ∧
    (p.move dx dy boxes).1.isMoving = false := by
  rw [Player.move] at h ⊢
  split at h
  · exact absurd h (by simp)
  · rename_i hcm
    rw [if_neg hcm]
    refine ⟨rfl, rfl, rfl, rfl, rfl, rfl, ?_⟩
    simp [Player.isMoving]

/-- Witness for C10: a move of (-5, 0) from x = 0 is rejected by the
world-boundary check and leaves the player in place, not moving. -/
theorem player_move_blocked_atomic_witness :
    (Player.move ⟨0, 5, 16, 32, 0, 5⟩ (-5) 0 []).1.x = 0 ∧
    (Player.move ⟨0, 5, 16, 32, 0, 5⟩ (-5) 0 []).1.isMoving = false := by
  have h := player_move_blocked_atomic ⟨0, 5, 16, 32, 0, 5⟩ (-5) 0 []
    (by norm_num [Player.move, canMoveTo])
  exact ⟨h.1, h.2.2.2.2.2.2⟩

/-- CONFIG.COLLISION_BOXES from gameConfig.js, in configuration order. -/
def configCollisionBoxes : List Rect :=
  [⟨0, 0, 1094, 30⟩, ⟨0, 0, 10, 1112⟩, ⟨1030, 0, 30, 1112⟩,
   ⟨0, 860, 600, 300⟩, ⟨0, 950, 1200, 300⟩, ⟨0, 170, 1200, 10⟩,
   ⟨550, 0, 10, 300⟩, ⟨700, 0, 10, 300⟩, ⟨560, 300, 270, 10⟩,
   ⟨200, 0, 10, 300⟩, ⟨380, 260, 5, 50⟩, ⟨930, 450, 130, 350⟩,
   ⟨0, 300, 370, 10⟩, ⟨0, 260, 370, 10⟩]

/-- The scenario-A player: position (500, 40), size 16×32. -/
def playerScenarioA : Player := ⟨500, 40, 16, 32, 500, 40⟩

/-- C3 counterexample: in the configured world the move (0, -10) from
(500, 40) is NOT blocked.  The target top edge y = 30 exactly touches the
top wall {0, 0, 1094, 30}, and the strict AABB test does not count
touching edges, so the move commits and y becomes 30, contradicting
`finalDy=0, blockedY=true, y stays 40`. -/
theorem scenario_a_counterexample :
    ¬ ((playerScenarioA.move 0 (-10) configCollisionBoxes).2 = false ∧
       (playerScenarioA.move 0 (-10) configCollisionBoxes).1.y = 40) := by
  norm_num [playerScenarioA, Player.move, canMoveTo, isColliding, clamp,
    configCollisionBoxes, canvasWidth, canvasHeight]

/-- C3 amended: the move (0, -10) from (500, 40) commits (returns `true`)
and lands at y = 30, exactly touching the top wall; a second (0, -10)
attempt from there strictly overlaps the wall and is blocked, leaving
y = 30. -/
theorem scenario_a_amended :
    (playerScenarioA.move 0 (-10) configCollisionBoxes).2 = true ∧
    (playerScenarioA.move 0 (-10) configCollisionBoxes).1.y = 30 ∧
    ((playerScenarioA.move 0 (-10) configCollisionBoxes).1.move 0 (-10)
        configCollisionBoxes).2 = false ∧
    ((playerScenarioA.move 0 (-10) configCollisionBoxes).1.move 0 (-10)
        configCollisionBoxes).1.y = 30 := by
  norm_num [playerScenarioA, Player.move, canMoveTo, isColliding, clamp,
    configCollisionBoxes, canvasWidth, canvasHeight]

/-- CollisionSystem.checkCollision:
`boxes.some(box => ValidationUtils.isColliding(bounds, box))`. -/
def checkCollision (bounds : Rect) (boxes : List Rect) : Bool :=
  boxes.any fun box => isColliding bounds box

/-- CollisionSystem.wouldCollide: builds the target rectangle and checks
it (the `fromX`/`fromY` arguments are accepted and ignored, as in the
source). -/
def wouldCollide (_fromX _fromY toX toY width height : ℚ)
    (boxes : List Rect) : Bool :=
  checkCollision ⟨toX, toY, width, height⟩ boxes

/-- Result object of CollisionSystem.getMovementResponse.  In the
unobstructed case the source object carries no `canMoveX`/`canMoveY`
properties; that absence is modelled by `none`. -/
structure MoveResponse where
  canMove : Bool
  adjustedX : ℚ
  adjustedY : ℚ
  canMoveX : Option Bool
  canMoveY : Option Bool
deriving DecidableEq

/-- CollisionSystem.getMovementResponse: accept the full displacement if
the full target is free, otherwise test each axis alone and keep the
current coordinate on each blocked axis. -/
def getMovementResponse (currentBounds : Rect) (deltaX deltaY : ℚ)
    (boxes : List Rect) : MoveResponse :=
  let targetX := currentBounds.x + deltaX
  let targetY := currentBounds.y + deltaY
  if !(wouldCollide currentBounds.x currentBounds.y targetX targetY
        currentBounds.width currentBounds.height boxes) then
    { canMove := true, adjustedX := targetX, adjustedY := targetY,
      canMoveX := none, canMoveY := none }
  else
    let canMoveX := !(wouldCollide currentBounds.x currentBounds.y targetX
      currentBounds.y currentBounds.width currentBounds.height boxes)
    let canMoveY := !(wouldCollide currentBounds.x currentBounds.y
      currentBounds.x targetY currentBounds.width currentBounds.height boxes)
    { canMove := false,
      adjustedX := if canMoveX then targetX else currentBounds.x,
      adjustedY := if canMoveY then targetY else currentBounds.y,
      canMoveX := some canMoveX, canMoveY := some canMoveY }

/-- The concrete C2 scenario: player bounds at (100, 100) size 16×32 and
the single obstacle at (116, 90) size 10×50, attempted move (5, 5).  The
X-only translation collides with the obstacle, the Y-only translation
does not, and the full diagonal target collides. -/
def playerScenarioC : Player := ⟨100, 100, 16, 32, 100, 100⟩

/-- The obstacle of the C2 scenario. -/
def obstacleScenarioC : Rect := ⟨116, 90, 10, 50⟩

/-- C2 counterexample: in the concrete scenario (X-only translation
collides, Y-only translation is free) the committed per-frame player
movement `Player.move(5, 5, obstacles)` is fully blocked — the final
displacement is (0, 0), not the claimed slide (0, 5).  `Player.move` is
all-or-nothing; the sliding `getMovementResponse` is not on the per-frame
movement path. -/
theorem axis_slide_counterexample :
    checkCollision ⟨105, 100, 16, 32⟩ [obstacleScenarioC] = true ∧
    checkCollision ⟨100, 105, 16, 32⟩ [obstacleScenarioC] = false ∧
    ¬ ((playerScenarioC.move 5 5 [obstacleScenarioC]).1.x -
          playerScenarioC.x = 0 ∧
       (playerScenarioC.move 5 5 [obstacleScenarioC]).1.y -
          playerScenarioC.y = 5) := by
  norm_num [playerScenarioC, obstacleScenarioC, Player.move, canMoveTo,
    checkCollision, isColliding, clamp, canvasWidth, canvasHeight]

/-- C2 amended: for a diagonal attempt whose full target and X-only
translation collide while the Y-only translation is free,
`CollisionSystem.getMovementResponse` (not on the per-frame player path)
resolves the slide along the free axis: `adjustedX = x` (finalDx = 0),
`adjustedY = y + dy` (finalDy = dy), `canMoveX = false` (blockedX),
`canMoveY = true` (not blockedY); `Player.move` itself commits nothing in
this scenario. -/
theorem movement_response_slides_on_free_axis (bounds : Rect) (dx dy : ℚ)
    (boxes : List Rect)
    (hFull : checkCollision ⟨bounds.x + dx, bounds.y + dy, bounds.width,
      bounds.height⟩ boxes = true)
    (hX : checkCollision ⟨bounds.x + dx, bounds.y, bounds.width,
      bounds.height⟩ boxes = true)
    (hY : checkCollision ⟨bounds.x, bounds.y + dy, bounds.width,
      bounds.height⟩ boxes = false) :
    getMovementResponse bounds dx dy boxes =
      { canMove := false, adjustedX := bounds.x, adjustedY := bounds.y + dy,
        canMoveX := some false, canMoveY := some true } := by
  simp [getMovementResponse, wouldCollide, hFull, hX, hY]

/-- Witness for the amended C2 in the concrete scenario: the response is
the slide (0, dy) with the X axis reported blocked. -/
theorem movement_response_slides_witness :
    getMovementResponse ⟨100, 100, 16, 32⟩ 5 5 [obstacleScenarioC] =
      { canMove := false, adjustedX := 100, adjustedY := 105,
        canMoveX := some false, canMoveY := some true } := by
  have h := movement_response_slides_on_free_axis ⟨100, 100, 16, 32⟩ 5 5
    [obstacleScenarioC]
    (by norm_num [checkCollision, isColliding, obstacleScenarioC])
    (by norm_num [checkCollision, isColliding, obstacleScenarioC])
    (by norm_num [checkCollision, isColliding, obstacleScenarioC])
  rw [h]
  norm_num [MoveResponse.mk.injEq]

/-- Dog behaviour state: `sit` or `jump` in Dog.js. -/
inductive DogState where
  | sit
  | jump
deriving DecidableEq

/-- Audio side effects requested by Dog.activate / Dog.deactivate: a bark
(`this.audio.play()` for ordinary dogs), the special-audio start with
background-music muting (the `Me` dog enter branch), and the
special-audio stop with background-music restore (the `Me` dog exit
branch). -/
inductive DogEvent where
  | bark
  | playSpecial
  | stopSpecial
deriving DecidableEq

/-- The state of Dog.js relevant to its proximity machine: name, spatial
fields from the GameObject constructor, behaviour state, the `barked`
debounce latch, and the animation timing fields. -/
structure Dog where
  name : String
  x : ℚ
  y : ℚ
  width : ℚ
  height : ℚ
  state : DogState
  barked : Bool
  stateChangeTime : ℚ
  animationDuration : ℚ
deriving DecidableEq

/-- Per-dog configuration record (CONFIG.DOGS.*): position, sprite frame
size and scale. -/
structure DogConfig where
  x : ℚ
  y : ℚ
  width : ℚ
  height : ℚ
  scale : ℚ
deriving DecidableEq

/-- The Dog constructor: `super(config.x, config.y, config.width *
config.scale, config.height * config.scale)` (the GameObject constructor
clamps the position), then `state = sit`, `barked = false`,
`stateChangeTime = 0`, `animationDuration = 500`. -/
def dogInit (name : String) (cfg : DogConfig) : Dog :=
  { name := name,
    x := clamp cfg.x 0 (canvasWidth - cfg.width * cfg.scale),
    y := clamp cfg.y 0 (canvasHeight - cfg.height * cfg.scale),
    width := cfg.width * cfg.scale,
    height := cfg.height * cfg.scale,
    state := DogState.sit,
    barked := false,
    stateChangeTime := 0,
    animationDuration := 500 }

/-- CONFIG.DOGS.ROTI (the fields the Dog constructor reads). -/
def rotiConfig : DogConfig := ⟨300, 400, 450, 800, 12 / 100⟩

/-- The interaction threshold used by Dog.update:
`CONFIG.DOGS.ME_INTERACTION_DISTANCE` (150) for the `Me` dog,
`CONFIG.DOGS.INTERACTION_DISTANCE` (100) otherwise. -/
def dogThreshold (d : Dog) : ℚ :=
  if d.name = "Me" then 150 else 100

/-- The JS comparison `distance < threshold` where `distance` comes from
`this.distanceTo(player)`.  A valid player position yields a real
distance (modelled `some dist`); an absent/invalid position propagates
NaN, and in JS `NaN < threshold` is `false` (modelled by the `none`
case). -/
def distLt : Option ℚ → ℚ → Bool
  | none, _ => false
  | some dist, t => decide (dist < t)

/-- Dog.setState: changes `state` and stamps `stateChangeTime = Date.now()`
only when the new state differs. -/
def dogSetState (d : Dog) (newState : DogState) (now : ℚ) : Dog :=
  if d.state ≠ newState then
    { d with state := newState, stateChangeTime := now }
  else d

/-- Dog.activate: the `Me` dog enters `jump` (latching `barked`) when
not already jumping and starts its special audio; any other dog enters
`jump` and barks when its `barked` latch is clear; otherwise nothing
happens. -/
def dogActivate (d : Dog) (now : ℚ) : Dog × List DogEvent :=
  if d.name = "Me" ∧ d.state ≠ DogState.jump then
    ({ dogSetState d DogState.jump now with barked := true },
     [DogEvent.playSpecial])
  else if d.name ≠ "Me" ∧ d.barked = false then
    ({ dogSetState d DogState.jump now with barked := true },
     [DogEvent.bark])
  else (d, [])

/-- Dog.deactivate: the `Me` dog returns to `sit` (clearing `barked`)
when not already sitting, stopping its special audio; any other dog
returns to `sit` and clears `barked` unconditionally. -/
def dogDeactivate (d : Dog) (now : ℚ) : Dog × List DogEvent :=
  if d.name = "Me" ∧ d.state ≠ DogState.sit then
    ({ dogSetState d DogState.sit now with barked := false },
     [DogEvent.stopSpecial])
  else if d.name ≠ "Me" then
    ({ dogSetState d DogState.sit now with barked := false }, [])
  else (d, [])

/-- Dog.update: compare the distance to the player against the per-dog
threshold and dispatch to activate or deactivate. -/
def dogUpdate (d : Dog) (dist : Option ℚ) (now : ℚ) : Dog × List DogEvent :=
  if distLt dist (dogThreshold d) then dogActivate d now
  else dogDeactivate d now

/-- Dog.reset: `setState(sit); barked = false; stateChangeTime = 0`. -/
def dogReset (d : Dog) (now : ℚ) : Dog :=
  { dogSetState d DogState.sit now with barked := false, stateChangeTime := 0 }

/-- Dog.getAnimationProgress:
`Math.min((now - stateChangeTime) / animationDuration, 1)`. -/
def getAnimationProgress (d : Dog) (now : ℚ) : ℚ :=
  min ((now - d.stateChangeTime) / d.animationDuration) 1

/-- Iterated per-frame updates: each element of the list is a
(distance, timestamp) input for one Dog.update call; the emitted events
are concatenated in call order. -/
def dogUpdates (d : Dog) : List (Option ℚ × ℚ) → Dog × List DogEvent
  | [] => (d, [])
  | i :: rest =>
    ((dogUpdates (dogUpdate d i.1 i.2).1 rest).1,
     (dogUpdate d i.1 i.2).2 ++ (dogUpdates (dogUpdate d i.1 i.2).1 rest).2)

/-- Dog.setState always leaves the dog in the requested state. -/
theorem dogSetState_state (d : Dog) (s : DogState) (now : ℚ) :
    (dogSetState d s now).state = s := by
  unfold dogSetState
  split
  · rfl
  · rename_i h
    exact (not_ne_iff.mp h).symm ▸ rfl

/-- Dog.setState does not touch the `barked` latch. -/
theorem dogSetState_barked (d : Dog) (s : DogState) (now : ℚ) :
    (dogSetState d s now).barked = d.barked := by
  unfold dogSetState
  split <;> rfl

/-- Dog.setState does not touch the name. -/
theorem dogSetState_name (d : Dog) (s : DogState) (now : ℚ) :
    (dogSetState d s now).name = d.name := by
  unfold dogSetState
  split <;> rfl

/-- A sitting, un-latched dog that is updated with the player in range
fires exactly one enter side effect and comes out jumping and latched,
with its name unchanged. -/
theorem dogUpdate_first_fire (d : Dog) (dist : Option ℚ) (now : ℚ)
    (hs : d.state = DogState.sit) (hb : d.barked = false)
    (hin : distLt dist (dogThreshold d) = true) :
    (dogUpdate d dist now).1.state = DogState.jump ∧
    (dogUpdate d dist now).1.barked = true ∧
    (dogUpdate d dist now).1.name = d.name ∧
    (dogUpdate d dist now).2.length = 1 := by
  unfold dogUpdate
  rw [if_pos hin]
  unfold dogActivate
  by_cases hn : d.name = "Me"
  · rw [if_pos ⟨hn, by simp [hs]⟩]
    exact ⟨dogSetState_state d _ now, rfl, dogSetState_name d _ now, rfl⟩
  · rw [if_neg (by tauto), if_pos ⟨hn, hb⟩]
    exact ⟨dogSetState_state d _ now, rfl, dogSetState_name d _ now, rfl⟩

/-- A jumping, latched dog that is updated with the player in range is
left unchanged and fires nothing. -/
theorem dogUpdate_latched (d : Dog) (dist : Option ℚ) (now : ℚ)
    (hs : d.state = DogState.jump) (hb : d.barked = true)
    (hin : distLt dist (dogThreshold d) = true) :
    dogUpdate d dist now = (d, []) := by
  unfold dogUpdate
  rw [if_pos hin]
  unfold dogActivate
  by_cases hn : d.name = "Me"
  · rw [if_neg (by simp [hs]), if_neg (by tauto)]
  · rw [if_neg (by tauto), if_neg (by simp [hb])]

/-- Iterating in-range updates on a jumping, latched dog changes nothing
and fires nothing. -/
theorem dogUpdates_latched (d : Dog) (l : List (Option ℚ × ℚ))
    (hs : d.state = DogState.jump) (hb : d.barked = true)
    (hin : ∀ x ∈ l, distLt x.1 (dogThreshold d) = true) :
    dogUpdates d l = (d, []) := by
  induction l with
  | nil => rfl
  | cons i rest ih =>
    have hstep := dogUpdate_latched d i.1 i.2 hs hb (hin i (by simp))
    have hrest := ih fun x hx => hin x (List.mem_cons_of_mem _ hx)
    simp [dogUpdates, hstep, hrest]

/-- C4: idempotent re-entry guard.  Starting from `state = sit` with
the `barked` latch clear, a sequence of per-frame updates during which
the player stays strictly within the dog interaction radius fires the
enter side effect exactly once, on the first call: the first call emits
one event and the whole sequence emits one event in total. -/
theorem dog_enter_fires_once (d : Dog) (i : Option ℚ × ℚ)
    (rest : List (Option ℚ × ℚ))
    (hs : d.state = DogState.sit) (hb : d.barked = false)
    (hin : ∀ x ∈ i :: rest, distLt x.1 (dogThreshold d) = true) :
    (dogUpdate d i.1 i.2).2.length = 1 ∧
    (dogUpdates d (i :: rest)).2.length = 1 := by
  have h1 := dogUpdate_first_fire d i.1 i.2 hs hb (hin i (by simp))
  have hthr : dogThreshold (dogUpdate d i.1 i.2).1 = dogThreshold d := by
    unfold dogThreshold
    rw [h1.2.2.1]
  have hrest := dogUpdates_latched (dogUpdate d i.1 i.2).1 rest h1.1 h1.2.1
    (fun x hx => by
      rw [hthr]
      exact hin x (List.mem_cons_of_mem _ hx))
  refine ⟨h1.2.2.2, ?_⟩
  simp [dogUpdates, hrest, h1.2.2.2]

/-- Witness for C4: the Roti dog, initially sitting and un-latched, is
updated three times with the player at distance 50 < 100; exactly one
event is emitted in total. -/
theorem dog_enter_fires_once_witness :
    (dogUpdates (dogInit ("Roti") rotiConfig)
      [(some 50, 10), (some 60, 20), (some 40, 30)]).2.length = 1 :=
  (dog_enter_fires_once (dogInit ("Roti") rotiConfig) (some 50, 10)
    [(some 60, 20), (some 40, 30)] rfl rfl
    (by decide)).2

/-- One externally invocable Dog operation, with the timestamp (and, for
update, the computed player distance) it is invoked at. -/
inductive DogOp where
  | update (dist : Option ℚ) (now : ℚ)
  | activate (now : ℚ)
  | deactivate (now : ℚ)
  | setState (s : DogState) (now : ℚ)
  | reset (now : ℚ)
deriving DecidableEq

/-- Application of one Dog operation to a dog (events discarded). -/
def applyDogOp (d : Dog) : DogOp → Dog
  | DogOp.update dist now => (dogUpdate d dist now).1
  | DogOp.activate now => (dogActivate d now).1
  | DogOp.deactivate now => (dogDeactivate d now).1
  | DogOp.setState s now => dogSetState d s now
  | DogOp.reset now => dogReset d now

/-- Recognizer for the bare setState operation. -/
def isBareSetState : DogOp → Bool
  | DogOp.setState _ _ => true
  | _ => false

/-- The latch/state agreement predicate of C5: `barked` is true exactly
when the state is `jump`. -/
def dogInv (d : Dog) : Prop :=
  d.barked = true ↔ d.state = DogState.jump

/-- C5 counterexample: a bare `setState(jump)` on a freshly
constructed dog makes `state = jump` while leaving `barked = false`,
so the claimed invariant fails after one operation from the initial
state. -/
theorem latch_state_counterexample :
    ¬ dogInv (applyDogOp (dogInit ("Roti") rotiConfig)
        (DogOp.setState DogState.jump 5)) := by
  simp [dogInv, applyDogOp, dogSetState, dogInit, rotiConfig]

/-- Dog.activate preserves latch/state agreement. -/
theorem dogActivate_inv (d : Dog) (now : ℚ) (h : dogInv d) :
    dogInv (dogActivate d now).1 := by
  unfold dogActivate
  split
  · simp [dogInv, dogSetState_state]
  · split
    · simp [dogInv, dogSetState_state]
    · exact h

/-- Dog.deactivate preserves latch/state agreement. -/
theorem dogDeactivate_inv (d : Dog) (now : ℚ) (h : dogInv d) :
    dogInv (dogDeactivate d now).1 := by
  unfold dogDeactivate
  split
  · simp [dogInv, dogSetState_state]
  · split
    · simp [dogInv, dogSetState_state]
    · exact h

/-- C5 amended: starting from any dog satisfying latch/state agreement
(in particular the initial `(sit, barked=false)` state), every sequence
of the operations update, activate, deactivate and reset — i.e. every
sequence free of bare setState calls — preserves `barked = true ↔
state = jump`.  (A bare setState breaks it; see the counterexample.) -/
theorem latch_state_agreement (d : Dog) (ops : List DogOp)
    (hinv : dogInv d)
    (hops : ∀ op ∈ ops, isBareSetState op = false) :
    dogInv (ops.foldl applyDogOp d) := by
  induction ops generalizing d with
  | nil => exact hinv
  | cons op rest ih =>
    rw [List.foldl_cons]
    refine ih (applyDogOp d op) ?_ fun o ho => hops o (List.mem_cons_of_mem _ ho)
    have hop := hops op (by simp)
    cases op with
    | update dist now =>
      show dogInv (dogUpdate d dist now).1
      unfold dogUpdate
      split
      · exact dogActivate_inv d now hinv
      · exact dogDeactivate_inv d now hinv
    | activate now => exact dogActivate_inv d now hinv
    | deactivate now => exact dogDeactivate_inv d now hinv
    | setState s now => simp [isBareSetState] at hop
    | reset now =>
      show dogInv (dogReset d now)
      unfold dogReset
      simp [dogInv, dogSetState_state]

/-- Witness for C5: a concrete setState-free sequence applied to the
initial Roti dog keeps the latch and the state in agreement. -/
theorem latch_state_agreement_witness :
    dogInv ([DogOp.update (some 50) 10, DogOp.deactivate 20,
      DogOp.activate 30, DogOp.reset 40].foldl applyDogOp
      (dogInit ("Roti") rotiConfig)) :=
  latch_state_agreement (dogInit ("Roti") rotiConfig)
    [DogOp.update (some 50) 10, DogOp.deactivate 20,
     DogOp.activate 30, DogOp.reset 40]
    (by simp [dogInv, dogInit]) (by decide)

/-- The Roti dog after one in-range update: jumping, with the latch
set. -/
def dogTriggered : Dog :=
  (dogUpdate (dogInit ("Roti") rotiConfig) (some 50) 100).1

/-- C8 counterexample: a dog in state `jump` that receives an invalid
(NaN-distance) player position does NOT hold its state: `NaN < threshold`
is false, so Dog.update calls deactivate and the dog transitions to
`sit`. -/
theorem invalid_position_counterexample :
    dogTriggered.state = DogState.jump ∧
    (dogUpdate dogTriggered none 200).1.state = DogState.sit := by
  have hff := dogUpdate_first_fire (dogInit ("Roti") rotiConfig) (some 50) 100
    rfl rfl (by decide)
  have hname : dogTriggered.name = "Roti" := hff.2.2.1
  refine ⟨hff.1, ?_⟩
  unfold dogUpdate
  rw [if_neg (by simp [distLt])]
  unfold dogDeactivate
  have hne : ¬ (dogTriggered.name = "Me" ∧ dogTriggered.state ≠ DogState.sit) := by
    rw [hname]
    rintro ⟨h, -⟩
    exact absurd h (by decide)
  rw [if_neg hne, if_pos (by rw [hname]; decide)]
  exact dogSetState_state _ _ _

/-- C8 amended: an absent/invalid player position (NaN distance) routes
Dog.update to deactivate, because `NaN < threshold` is false.  A dog
already sitting with the latch clear is indeed left unchanged with no
side effect, but a jumping dog transitions to `sit` (see the
counterexample) instead of holding its state. -/
theorem invalid_position_routes_to_deactivate (d : Dog) (now : ℚ) :
    dogUpdate d none now = dogDeactivate d now ∧
    (d.state = DogState.sit → d.barked = false →
      (dogUpdate d none now).1 = d ∧ (dogUpdate d none now).2 = []) := by
  have hroute : dogUpdate d none now = dogDeactivate d now := by
    unfold dogUpdate
    rw [if_neg (by simp [distLt])]
  refine ⟨hroute, fun hs hb => ?_⟩
  rw [hroute]
  unfold dogDeactivate
  by_cases hn : d.name = "Me"
  · rw [if_neg (by simp [hs]), if_neg (by simp [hn])]
    exact ⟨rfl, rfl⟩
  · rw [if_neg (by tauto), if_pos hn]
    have h1 : dogSetState d DogState.sit now = d := by
      unfold dogSetState
      rw [if_neg (by simp [hs])]
    rw [h1]
    constructor
    · cases d
      simp_all
    · rfl

/-- Witness for C8 (amended): the freshly constructed, sitting Roti dog
holds its state with no side effect on an invalid-position tick. -/
theorem invalid_position_witness :
    (dogUpdate (dogInit ("Roti") rotiConfig) none 7).1 =
      dogInit ("Roti") rotiConfig ∧
    (dogUpdate (dogInit ("Roti") rotiConfig) none 7).2 = [] :=
  (invalid_position_routes_to_deactivate (dogInit ("Roti") rotiConfig) 7).2
    rfl rfl

/-- A dog whose last state change was stamped at time 500 (the Roti dog
after a setState to `jump` at t = 500). -/
def dogStamped : Dog :=
  dogSetState (dogInit ("Roti") rotiConfig) DogState.jump 500

/-- C9 counterexample: `getAnimationProgress` performs only
`Math.min(elapsed / animationDuration, 1)` — there is no lower clamp at
0.  Queried at `now = 0` with `stateChangeTime = 500` (and duration 500)
it returns -1, which differs from `clamp(-1, 0, 1) = 0` and lies outside
[0, 1]. -/
theorem animation_progress_counterexample :
    getAnimationProgress dogStamped 0 = -1 ∧
    ¬ (0 ≤ getAnimationProgress dogStamped 0) := by
  have hst : dogStamped.stateChangeTime = 500 := by
    unfold dogStamped dogSetState
    rw [if_pos (by decide)]
  have had : dogStamped.animationDuration = 500 := by
    unfold dogStamped dogSetState
    rw [if_pos (by decide)]
    rfl
  unfold getAnimationProgress
  rw [hst, had]
  norm_num

/-- C9 amended: whenever the query time is not earlier than the stored
`stateChangeTime` (which holds for the monotone `Date.now()` stamps the
code uses) and the animation duration is positive,
`getAnimationProgress(now)` equals
`clamp((now - stateChangeTime) / animationDuration, 0, 1)` and lies in
[0, 1].  For `now < stateChangeTime` the result is negative (see the
counterexample): the code takes `min` with 1 but never clamps below at
0. -/
theorem animation_progress_clamped (d : Dog) (now : ℚ)
    (h1 : d.stateChangeTime ≤ now) (h2 : 0 < d.animationDuration) :
    getAnimationProgress d now =
      clamp ((now - d.stateChangeTime) / d.animationDuration) 0 1 ∧
    0 ≤ getAnimationProgress d now ∧ getAnimationProgress d now ≤ 1 := by
  have hq : 0 ≤ (now - d.stateChangeTime) / d.animationDuration :=
    div_nonneg (by linarith) (le_of_lt h2)
  unfold getAnimationProgress clamp
  refine ⟨?_, le_min hq zero_le_one, min_le_right _ _⟩
  rw [max_eq_left hq]

/-- Witness for C9 (amended): at `now = 750` the stamped dog progress
is `clamp(250/500, 0, 1)` and lies in [0, 1]. -/
theorem animation_progress_clamped_witness :
    0 ≤ getAnimationProgress dogStamped 750 ∧
    getAnimationProgress dogStamped 750 ≤ 1 := by
  have hst : dogStamped.stateChangeTime = 500 := by
    unfold dogStamped dogSetState
    rw [if_pos (by decide)]
  have had : dogStamped.animationDuration = 500 := by
    unfold dogStamped dogSetState
    rw [if_pos (by decide)]
    rfl
  exact (animation_progress_clamped dogStamped 750
    (by rw [hst]; norm_num) (by rw [had]; norm_num)).2

/-- CONFIG.PERFORMANCE.BUMP_SOUND_COOLDOWN, also `this.bumpCooldown` in
Game.js: 150 ms. -/
def bumpCooldown : ℚ := 150

/-- Game.playBumpSound as a state transformer on `lastBumpTime`: a
request at `currentTime` is suppressed when `currentTime - lastBumpTime <
bumpCooldown`; otherwise it records `lastBumpTime = currentTime` and
fires the bump sound.  The returned Bool reports whether the sound
fired. -/
def playBumpSound (lastBumpTime currentTime : ℚ) : ℚ × Bool :=
  if currentTime - lastBumpTime < bumpCooldown then (lastBumpTime, false)
  else (currentTime, true)

/-- Folds a sequence of bump requests (their `Date.now()` timestamps)
through `playBumpSound`, reporting for each request whether it fired. -/
def bumpRun (lastBumpTime : ℚ) : List ℚ → List Bool
  | [] => []
  | t :: ts =>
    (playBumpSound lastBumpTime t).2 ::
      bumpRun (playBumpSound lastBumpTime t).1 ts

/-- C6: bump debounce.  A bump request fires iff at least the cooldown
interval (150 ms) has elapsed since the last request that fired; starting
from the initial `lastBumpTime = 0`, two blocked-move requests within the
cooldown window and a third after the window produce exactly the firing
pattern fire/suppress/fire — one notification for the first two requests
and a second for the third. -/
theorem bump_debounce (t1 t2 t3 : ℚ)
    (h0 : bumpCooldown ≤ t1) (h12 : t1 ≤ t2)
    (hwin : t2 - t1 < bumpCooldown)
    (h23 : t2 ≤ t3) (hcd : bumpCooldown ≤ t3 - t1) :
    (∀ last t : ℚ, (playBumpSound last t).2 = true ↔ bumpCooldown ≤ t - last) ∧
    bumpRun 0 [t1, t2, t3] = [true, false, true] := by
  constructor
  · intro last t
    unfold playBumpSound
    split
    · rename_i h
      simp only [Bool.false_eq_true, false_iff, not_le]
      exact h
    · rename_i h
      simp only [true_iff]
      exact not_lt.mp h
  · have s1 : playBumpSound 0 t1 = (t1, true) := by
      unfold playBumpSound
      rw [if_neg (by rw [sub_zero]; exact not_lt.mpr h0)]
    have s2 : playBumpSound t1 t2 = (t1, false) := by
      unfold playBumpSound
      rw [if_pos hwin]
    have s3 : playBumpSound t1 t3 = (t3, true) := by
      unfold playBumpSound
      rw [if_neg (not_lt.mpr hcd)]
    simp [bumpRun, s1, s2, s3]

/-- Witness for C6 at request times 1000, 1100, 1200: the second request
(100 ms after the first) is suppressed, the third (200 ms after the
first) fires again. -/
theorem bump_debounce_witness :
    bumpRun 0 [1000, 1100, 1200] = [true, false, true] :=
  (bump_debounce 1000 1100 1200 (by norm_num [bumpCooldown]) (by norm_num)
    (by norm_num [bumpCooldown]) (by norm_num)
    (by norm_num [bumpCooldown])).2
